import Mathlib

/-!
Shallow embedding of the AI_STPA_Risk_Analysis repository.

Source files embedded:
  * src/stpa_agent.py — function analyze_system: builds a prompt from the
    caller-supplied description, issues one HTTP POST to the Ollama endpoint,
    and normalizes the answer into a result envelope.
  * src/app.py — Flask route POST /analyze: reads the JSON body, extracts the
    optional "description" field (default ""), calls analyze_system and
    returns the envelope with status 200 (Flask turns an uncaught exception
    into a 500).

Library behaviour the code relies on is modelled explicitly:
  * json.loads is a parameter loads : String -> Except String Json (the error
    carries the JSONDecodeError message).  Theorems that depend on how a
    specific string parses take that fact as a hypothesis, matching Python
    json semantics at that string.
  * the network is a parameter send : HttpRequest -> HttpResult.
  * requests: response.raise_for_status raises HTTPError exactly for
    status codes in [400, 600); requests exceptions (connection errors,
    timeouts, HTTPError, and the JSONDecodeError raised by response.json)
    are all RequestException and are caught by the except clause of
    analyze_system.
  * Python subscripting parsed["response"] raises KeyError when the dict
    lacks the key and TypeError when the value is not a dict; json.loads
    applied to a non-string raises TypeError.  Neither is a
    RequestException, so both escape analyze_system.
-/

/-- A JSON value, as produced by Python json.loads.  An obj holds the items
of a Python dict, so its keys are unique (json.loads collapses duplicate
keys, last one wins, before the program ever sees them). -/
inductive Json where
  | null : Json
  | bool (b : Bool) : Json
  | num (n : Int) : Json
  | str (s : String) : Json
  | arr (elems : List Json) : Json
  | obj (entries : List (String × Json)) : Json

/-- Lookup of a key among the items of a dict (keys unique, see Json.obj). -/
def jsonLookup : List (String × Json) → String → Option Json
  | [], _ => none
  | (k, v) :: rest, key => if k = key then some v else jsonLookup rest key

/-- Python exceptions that escape analyze_system (they are not
requests.exceptions.RequestException, so the except clause does not stop
them). -/
inductive PyError where
  | keyError (key : String) : PyError
  | typeError (msg : String) : PyError
  | attributeError (msg : String) : PyError

/-- Python subscripting value["response"]-style: a dict yields the value or
KeyError; any non-dict value raises TypeError. -/
def pySubscript (j : Json) (key : String) : Except PyError Json :=
  match j with
  | Json.obj entries =>
      match jsonLookup entries key with
      | some v => Except.ok v
      | none => Except.error (PyError.keyError key)
  | _ => Except.error (PyError.typeError "value is not subscriptable with a string key")

/-- An HTTP POST request as issued by requests.post(url, json=payload). -/
structure HttpRequest where
  url : String
  payload : Json

/-- What the network produced for one requests.post call: either requests
raised a RequestException before a response existed (connection refused,
timeout, ...), with cause the str of the exception, or the server answered
with a status code, a reason phrase and a body text. -/
inductive HttpResult where
  | transportError (cause : String) : HttpResult
  | response (status : Nat) (reason : String) (body : String) : HttpResult

/-- The fixed Ollama endpoint of requests.post in analyze_system. -/
def ollamaUrl : String := "http://localhost:11434/api/generate"

/-- Text of the prompt f-string before the interpolated description
(src/stpa_agent.py lines 6-8). -/
def promptPre : String :=
  "\n    Perform a Systems-Theoretic Process Analysis (STPA) for the following system:\n    \""

/-- Text of the prompt f-string after the interpolated description
(src/stpa_agent.py lines 8-18); the doubled braces of the f-string render
as single braces. -/
def promptPost : String :=
  "\"\n\n    List the following in JSON format with keys \"system_losses\", \"associated_hazards\", and \"unsafe_control_actions\". Each key should map to a list of strings.\n\n    Example Output:\n    \x7b\n        \"system_losses\": [\"Loss 1 description\", \"Loss 2 description\"],\n        \"associated_hazards\": [\"Hazard 1 description\", \"Hazard 2 description\"],\n        \"unsafe_control_actions\": [\"UCA 1 description\", \"UCA 2 description\"]\n    \x7d\n    "

/-- The prompt local variable of analyze_system: the f-string with the
description interpolated verbatim. -/
def prompt (description : String) : String :=
  promptPre ++ description ++ promptPost

/-- The one request analyze_system issues: requests.post(ollamaUrl, json=
\x7bmodel, prompt, stream, format\x7d) (src/stpa_agent.py lines 21-26). -/
def theRequest (description : String) : HttpRequest :=
  { url := ollamaUrl
    payload := Json.obj
      [("model", Json.str "mistral"),
       ("prompt", Json.str (prompt description)),
       ("stream", Json.bool false),
       ("format", Json.str "json")] }

/-- Message of the HTTPError raised by response.raise_for_status for a
status code in [400, 600) (requests: "<status> Client Error: <reason> for
url: <url>" below 500, "Server Error" from 500). -/
def raiseForStatusMessage (status : Nat) (reason url : String) : String :=
  (if status < 500 then toString status ++ " Client Error: "
   else toString status ++ " Server Error: ")
    ++ reason ++ " for url: " ++ url

/-- Body of the try block of analyze_system given the network's answer to
the one POST: produces the parsed_output value, or the Python exception
that escapes.  The seven outcomes, in source order (src/stpa_agent.py lines
20-40):
  * requests.post raised: RequestException, caught, error envelope;
  * raise_for_status raised (status 4xx/5xx): HTTPError is a
    RequestException, caught, error envelope;
  * response.json() raised (body not valid JSON): requests JSONDecodeError
    is a RequestException, caught, error envelope;
  * response.json()["response"] raised KeyError or TypeError: escapes;
  * json.loads(output) with output not a string: TypeError, escapes;
  * json.loads(output) raised JSONDecodeError: caught by the inner except,
    fallback diagnostic object;
  * json.loads(output) succeeded: the parsed value itself. -/
def runRequest (loads : String → Except String Json) : HttpResult → Except PyError Json
  | HttpResult.transportError cause =>
      Except.ok (Json.obj
        [("error", Json.str ("Communication with Ollama failed: " ++ cause))])
  | HttpResult.response status reason body =>
      if 400 ≤ status ∧ status < 600 then
        Except.ok (Json.obj
          [("error", Json.str ("Communication with Ollama failed: "
              ++ raiseForStatusMessage status reason ollamaUrl))])
      else
        match loads body with
        | Except.error msg =>
            Except.ok (Json.obj
              [("error", Json.str ("Communication with Ollama failed: " ++ msg))])
        | Except.ok bodyJson =>
            match pySubscript bodyJson "response" with
            | Except.error e => Except.error e
            | Except.ok output =>
                match output with
                | Json.str s =>
                    Except.ok
                      (match loads s with
                       | Except.ok parsed => parsed
                       | Except.error _ =>
                           Json.obj
                             [("error", Json.str "Failed to parse JSON from LLM"),
                              ("raw_llm_output", Json.str s)])
                | _ => Except.error
                    (PyError.typeError "the JSON object must be str, bytes or bytearray")

/-- The dict analyze_system returns (src/stpa_agent.py lines 42-45). -/
structure Envelope where
  input_description : String
  analysis : Json

/-- analyze_system of src/stpa_agent.py, over the two modelled library
parameters.  The first component is the list of HTTP requests issued (the
code issues exactly one, with no retry); the second is the returned
envelope, or the Python exception that escaped the function. -/
def analyze_system (loads : String → Except String Json)
    (send : HttpRequest → HttpResult) (description : String) :
    List HttpRequest × Except PyError Envelope :=
  ([theRequest description],
   match runRequest loads (send (theRequest description)) with
   | Except.ok parsedOutput =>
       Except.ok { input_description := description, analysis := parsedOutput }
   | Except.error e => Except.error e)

mutual

/-- Python repr() on a value parsed from JSON, as the f-string of
analyze_system applies through str() to a non-string description.
Containers render with Python repr of their elements (single-quoted
strings; Python escaping of quote and backslash characters inside those
reprs is not reproduced — no string reaching this branch in any theorem
contains them). -/
def pyRepr : Json → String
  | Json.null => "None"
  | Json.bool true => "True"
  | Json.bool false => "False"
  | Json.num n => toString n
  | Json.str s => "\x27" ++ s ++ "\x27"
  | Json.arr elems => "[" ++ String.intercalate ", " (pyReprList elems) ++ "]"
  | Json.obj entries => "\x7b" ++ String.intercalate ", " (pyReprEntries entries) ++ "\x7d"

/-- Python reprs of the elements of a list. -/
def pyReprList : List Json → List String
  | [] => []
  | x :: xs => pyRepr x :: pyReprList xs

/-- Python reprs of the items of a dict. -/
def pyReprEntries : List (String × Json) → List String
  | [] => []
  | (k, v) :: rest => ("\x27" ++ k ++ "\x27: " ++ pyRepr v) :: pyReprEntries rest

end

/-- Python str(): the identity on strings, repr-like on everything else. -/
def pyStr : Json → String
  | Json.str s => s
  | j => pyRepr j

/-- Python data.get(key, default): only a dict has a get method — on any
other value parsed from JSON (a list, a string, a number, None, ...) the
attribute access raises AttributeError. -/
def pyGet (data : Json) (key : String) (default : Json) : Except PyError Json :=
  match data with
  | Json.obj entries =>
      match jsonLookup entries key with
      | some v => Except.ok v
      | none => Except.ok default
  | _ => Except.error (PyError.attributeError "object has no attribute get")

/-- The description string the route hands to analyze_system, given the
items of an object request body: the "description" value (made a string by
the f-string) or "" when absent. -/
def routeDescription (entries : List (String × Json)) : String :=
  match jsonLookup entries "description" with
  | some v => pyStr v
  | none => ""

/-- The analyze route of src/app.py (lines 7-12): data = request.get_json();
description = data.get("description", ""); return jsonify(analyze_system(
description)).  The argument data is the parsed JSON request body; an
escaped Python exception is the error case. -/
def analyze (loads : String → Except String Json)
    (send : HttpRequest → HttpResult) (data : Json) : Except PyError Envelope :=
  match pyGet data "description" (Json.str "") with
  | Except.error e => Except.error e
  | Except.ok descValue => (analyze_system loads send (pyStr descValue)).2

/-- HTTP status of the route's response: 200 when the handler returns
normally (jsonify), 500 when an exception escapes it (Flask's default
conversion of an unhandled exception). -/
def flaskStatus : Except PyError Envelope → Nat
  | Except.ok _ => 200
  | Except.error _ => 500

/-- The JSON body jsonify produces from the returned dict: exactly the two
top-level keys input_description and analysis. -/
def envelopeJson (e : Envelope) : Json :=
  Json.obj [("input_description", Json.str e.input_description), ("analysis", e.analysis)]

/-- Downstream outcomes on which the try/except structure of analyze_system
yields an envelope (rather than letting a KeyError/TypeError escape): a
transport failure; an error status 4xx/5xx; a body that is not valid JSON;
or a body whose parsed value is a dict with a string under "response". -/
def ReturnsEnvelope (loads : String → Except String Json) (r : HttpResult) : Prop :=
  (∃ cause, r = HttpResult.transportError cause) ∨
  (∃ status reason body, r = HttpResult.response status reason body ∧
    (400 ≤ status ∧ status < 600)) ∨
  (∃ status reason body msg, r = HttpResult.response status reason body ∧
    ¬(400 ≤ status ∧ status < 600) ∧ loads body = Except.error msg) ∨
  (∃ status reason body bodyJson s, r = HttpResult.response status reason body ∧
    ¬(400 ≤ status ∧ status < 600) ∧ loads body = Except.ok bodyJson ∧
    pySubscript bodyJson "response" = Except.ok (Json.str s))

/-- On every outcome in ReturnsEnvelope, runRequest produces a value and no
exception. -/
theorem runRequest_ok (loads : String → Except String Json) (r : HttpResult)
    (h : ReturnsEnvelope loads r) : ∃ v, runRequest loads r = Except.ok v := by
  rcases h with ⟨cause, rfl⟩ |
    ⟨status, reason, body, rfl, hs⟩ |
    ⟨status, reason, body, msg, rfl, hs, hl⟩ |
    ⟨status, reason, body, bodyJson, s, rfl, hs, hl, hsub⟩
  · exact ⟨_, rfl⟩
  · simp only [runRequest, if_pos hs]
    exact ⟨_, rfl⟩
  · simp only [runRequest, if_neg hs, hl]
    exact ⟨_, rfl⟩
  · simp only [runRequest, if_neg hs, hl, hsub]
    exact ⟨_, rfl⟩

/-- A JSON object has a key (used to state the shape of the response body
the route serializes). -/
def hasKey (j : Json) (key : String) : Bool :=
  match j with
  | Json.obj entries => (jsonLookup entries key).isSome
  | _ => false

/-- json.loads behaviour at a body that is not valid JSON (a message a
JSONDecodeError carries). -/
def loadsNothing : String → Except String Json :=
  fun _ => Except.error "Expecting value: line 1 column 1 (char 0)"

/-- A network where the POST raises a connection error. -/
def sendRefused : HttpRequest → HttpResult :=
  fun _ => HttpResult.transportError "connection refused"

/-- C1: for every input description d, the envelope returned by
analyze_system has input_description equal to d verbatim, in every outcome
that returns an envelope (transport failure, parse failure, success). -/
theorem analyze_system_echoes_description (loads : String → Except String Json)
    (send : HttpRequest → HttpResult) (d : String) (env : Envelope)
    (h : (analyze_system loads send d).2 = Except.ok env) :
    env.input_description = d := by
  cases hr : runRequest loads (send (theRequest d)) with
  | ok v =>
      simp only [analyze_system, hr, Except.ok.injEq] at h
      subst h
      rfl
  | error e =>
      simp only [analyze_system, hr] at h
      exact Except.noConfusion h

/-- Witness for C1: a transport failure with description "a drone". -/
theorem analyze_system_echoes_description_witness :
    Envelope.input_description
      { input_description := "a drone",
        analysis := Json.obj
          [("error", Json.str ("Communication with Ollama failed: " ++ "connection refused"))] }
      = "a drone" :=
  analyze_system_echoes_description loadsNothing sendRefused "a drone" _ rfl

/-- json.loads behaviour when the downstream body is the valid JSON object
text with no entries. -/
def loadsEmptyObj : String → Except String Json :=
  fun s =>
    if s = "\x7b\x7d" then Except.ok (Json.obj [])
    else Except.error "Expecting value: line 1 column 1 (char 0)"

/-- A network answering 200 OK with the body consisting of an empty JSON
object. -/
def sendEmptyObj : HttpRequest → HttpResult :=
  fun _ => HttpResult.response 200 "OK" "\x7b\x7d"

/-- Counterexample to C2 as stated: on a 200 response whose valid JSON body
lacks the key "response", analyze_system raises KeyError instead of
returning an envelope. -/
theorem analyze_system_total_counterexample :
    (analyze_system loadsEmptyObj sendEmptyObj "a drone").2
      = Except.error (PyError.keyError "response") := rfl

/-- C2 amended: for every input description and every downstream outcome
that is a transport error, a 4xx/5xx status, a non-JSON body, or a response
whose parsed JSON body is an object with a string under "response",
analyze_system issues exactly one request and returns exactly one result
envelope without raising. -/
theorem analyze_system_total (loads : String → Except String Json)
    (send : HttpRequest → HttpResult) (d : String)
    (h : ReturnsEnvelope loads (send (theRequest d))) :
    (analyze_system loads send d).1.length = 1 ∧
    ∃ env, (analyze_system loads send d).2 = Except.ok env := by
  obtain ⟨v, hv⟩ := runRequest_ok loads (send (theRequest d)) h
  refine ⟨rfl, ?_⟩
  simp only [analyze_system, hv]
  exact ⟨_, rfl⟩

/-- json.loads behaviour for the C2 witness (never consulted: the call
fails at transport level). -/
def loadsTotalW : String → Except String Json :=
  fun _ => Except.error "Expecting value: line 1 column 1 (char 0)"

/-- A network raising a timeout, for the C2 witness. -/
def sendTimeout : HttpRequest → HttpResult :=
  fun _ => HttpResult.transportError "Read timed out"

/-- Witness for C2 amended: a transport error outcome. -/
theorem analyze_system_total_witness :
    (analyze_system loadsTotalW sendTimeout "a kiln").1.length = 1 ∧
    ∃ env, (analyze_system loadsTotalW sendTimeout "a kiln").2 = Except.ok env :=
  analyze_system_total loadsTotalW sendTimeout "a kiln"
    (Or.inl ⟨"Read timed out", rfl⟩)

/-- C8: for every description, analyze_system issues exactly one HTTP POST,
to http://localhost:11434/api/generate, whose JSON payload has exactly the
four fields model="mistral", prompt=<the templated prompt>, stream=false,
format="json". -/
theorem analyze_system_single_post (loads : String → Except String Json)
    (send : HttpRequest → HttpResult) (d : String) :
    (analyze_system loads send d).1 =
      [{ url := "http://localhost:11434/api/generate",
         payload := Json.obj
           [("model", Json.str "mistral"),
            ("prompt", Json.str (prompt d)),
            ("stream", Json.bool false),
            ("format", Json.str "json")] }] := rfl

/-- C10: the prompt embeds the description verbatim between two fixed text
blocks (no escaping or sanitization), and the request trace of
analyze_system is the same under any two environments — the payload is a
pure deterministic function of the description alone. -/
theorem prompt_embeds_description (loadsA loadsB : String → Except String Json)
    (sendA sendB : HttpRequest → HttpResult) (d : String) :
    prompt d = promptPre ++ d ++ promptPost ∧
    (analyze_system loadsA sendA d).1 = (analyze_system loadsB sendB d).1 :=
  ⟨rfl, rfl⟩

/-- json.loads behaviour for the C3 counterexample: the downstream body
parses to a dict whose "response" value is the text "3", itself valid
JSON. -/
def loadsNum : String → Except String Json :=
  fun s =>
    if s = "\x7b\"response\": \"3\"\x7d" then
      Except.ok (Json.obj [("response", Json.str "3")])
    else if s = "3" then Except.ok (Json.num 3)
    else Except.error "Expecting value: line 1 column 1 (char 0)"

/-- A network answering with the non-2xx, non-error status 300 (requests
follows only 301/302/303/307/308 with a Location header, so a final 300
reaches raise_for_status, which raises only for 4xx/5xx). -/
def sendStatus300 : HttpRequest → HttpResult :=
  fun _ => HttpResult.response 300 "Multiple Choices" "\x7b\"response\": \"3\"\x7d"

/-- Counterexample to C3 as stated: status 300 is not 2xx, yet
analyze_system does not return the communication-failure envelope — it
proceeds and returns the parsed analysis, because raise_for_status raises
only for statuses in [400, 600). -/
theorem analyze_system_failure_envelope_counterexample :
    sendStatus300 (theRequest "a car")
      = HttpResult.response 300 "Multiple Choices" "\x7b\"response\": \"3\"\x7d" ∧
    ¬(200 ≤ 300 ∧ 300 ≤ 299) ∧
    (analyze_system loadsNum sendStatus300 "a car").2
      = Except.ok { input_description := "a car", analysis := Json.num 3 } ∧
    (∀ cause, Json.num 3
      ≠ Json.obj [("error", Json.str ("Communication with Ollama failed: " ++ cause))]) :=
  ⟨rfl, by decide, rfl, fun _ h => Json.noConfusion h⟩

/-- The cause string with which a downstream outcome is absorbed by the
except clause of analyze_system before the body is read: the str of the
RequestException for a transport failure, the str of the HTTPError that
raise_for_status raises for a 4xx/5xx status; none otherwise. -/
def failureCause : HttpResult → Option String
  | HttpResult.transportError cause => some cause
  | HttpResult.response status reason _ =>
      if 400 ≤ status ∧ status < 600 then
        some (raiseForStatusMessage status reason ollamaUrl)
      else none

/-- C3 amended: if the HTTP POST fails with a connection error, a timeout,
or a 4xx/5xx status (not: any non-2xx status), analyze_system issues no
retry — the request trace is the single POST — and returns an envelope
whose analysis is the object with single key "error" mapped to
"Communication with Ollama failed: " followed by the cause. -/
theorem analyze_system_failure_envelope (loads : String → Except String Json)
    (send : HttpRequest → HttpResult) (d cause : String)
    (h : failureCause (send (theRequest d)) = some cause) :
    (analyze_system loads send d).1 = [theRequest d] ∧
    (analyze_system loads send d).2 = Except.ok
      { input_description := d,
        analysis := Json.obj
          [("error", Json.str ("Communication with Ollama failed: " ++ cause))] } := by
  refine ⟨rfl, ?_⟩
  cases hr : send (theRequest d) with
  | transportError c =>
      rw [hr] at h
      simp only [failureCause, Option.some.injEq] at h
      subst h
      simp [analyze_system, runRequest, hr]
  | response status reason body =>
      rw [hr] at h
      simp only [failureCause] at h
      by_cases hs : 400 ≤ status ∧ status < 600
      · rw [if_pos hs] at h
        simp only [Option.some.injEq] at h
        subst h
        simp [analyze_system, runRequest, hr, if_pos hs]
      · rw [if_neg hs] at h
        exact Option.noConfusion h

/-- json.loads behaviour for the C3 witness (never consulted). -/
def loadsFailW : String → Except String Json :=
  fun _ => Except.error "Expecting value: line 1 column 1 (char 0)"

/-- A network answering 404, for the C3 witness. -/
def sendStatus404 : HttpRequest → HttpResult :=
  fun _ => HttpResult.response 404 "Not Found" ""

/-- Witness for C3 amended: a 404 status yields the single POST and the
communication-failure envelope carrying the HTTPError message. -/
theorem analyze_system_failure_envelope_witness :
    (analyze_system loadsFailW sendStatus404 "a lathe").1 = [theRequest "a lathe"] ∧
    (analyze_system loadsFailW sendStatus404 "a lathe").2 = Except.ok
      { input_description := "a lathe",
        analysis := Json.obj
          [("error", Json.str ("Communication with Ollama failed: "
              ++ raiseForStatusMessage 404 "Not Found" ollamaUrl))] } :=
  analyze_system_failure_envelope loadsFailW sendStatus404 "a lathe"
    (raiseForStatusMessage 404 "Not Found" ollamaUrl) rfl

/-- C4: if the downstream call succeeds but the text under "response" is
not valid JSON, the envelope's analysis is exactly the object with keys
"error" mapped to "Failed to parse JSON from LLM" and "raw_llm_output"
mapped to the raw text, unmodified. -/
theorem analyze_system_parse_fallback (loads : String → Except String Json)
    (send : HttpRequest → HttpResult) (d : String)
    (status : Nat) (reason body : String) (bodyJson : Json) (s m : String)
    (h1 : send (theRequest d) = HttpResult.response status reason body)
    (h2 : ¬(400 ≤ status ∧ status < 600))
    (h3 : loads body = Except.ok bodyJson)
    (h4 : pySubscript bodyJson "response" = Except.ok (Json.str s))
    (h5 : loads s = Except.error m) :
    (analyze_system loads send d).2 = Except.ok
      { input_description := d,
        analysis := Json.obj
          [("error", Json.str "Failed to parse JSON from LLM"),
           ("raw_llm_output", Json.str s)] } := by
  simp [analyze_system, runRequest, h1, if_neg h2, h3, h4, h5]

/-- json.loads behaviour for the C4 witness: the downstream body parses to
a dict whose "response" value is the text "not json", which is not valid
JSON. -/
def loadsNotJson : String → Except String Json :=
  fun s =>
    if s = "\x7b\"response\": \"not json\"\x7d" then
      Except.ok (Json.obj [("response", Json.str "not json")])
    else Except.error "Expecting value: line 1 column 1 (char 0)"

/-- A network answering 200 OK with a body whose "response" text is "not
json". -/
def sendNotJson : HttpRequest → HttpResult :=
  fun _ => HttpResult.response 200 "OK" "\x7b\"response\": \"not json\"\x7d"

/-- Witness for C4 at the raw text "not json". -/
theorem analyze_system_parse_fallback_witness :
    (analyze_system loadsNotJson sendNotJson "a pump").2 = Except.ok
      { input_description := "a pump",
        analysis := Json.obj
          [("error", Json.str "Failed to parse JSON from LLM"),
           ("raw_llm_output", Json.str "not json")] } :=
  analyze_system_parse_fallback loadsNotJson sendNotJson "a pump"
    200 "OK" "\x7b\"response\": \"not json\"\x7d"
    (Json.obj [("response", Json.str "not json")]) "not json"
    "Expecting value: line 1 column 1 (char 0)"
    rfl (by decide) rfl rfl rfl

/-- C5: if the downstream call succeeds and the "response" text parses as
JSON, the parsed value becomes the envelope's analysis unchanged — any
valid JSON value passes through, with no check for the three expected
keys. -/
theorem analyze_system_passthrough (loads : String → Except String Json)
    (send : HttpRequest → HttpResult) (d : String)
    (status : Nat) (reason body : String) (bodyJson : Json) (s : String) (v : Json)
    (h1 : send (theRequest d) = HttpResult.response status reason body)
    (h2 : ¬(400 ≤ status ∧ status < 600))
    (h3 : loads body = Except.ok bodyJson)
    (h4 : pySubscript bodyJson "response" = Except.ok (Json.str s))
    (h5 : loads s = Except.ok v) :
    (analyze_system loads send d).2 = Except.ok
      { input_description := d, analysis := v } := by
  simp [analyze_system, runRequest, h1, if_neg h2, h3, h4, h5]

/-- json.loads behaviour for the C5 witness: the "response" text "[1, 2]"
parses to a JSON array — a valid JSON value that has none of the keys
system_losses, associated_hazards, unsafe_control_actions. -/
def loadsArray : String → Except String Json :=
  fun s =>
    if s = "\x7b\"response\": \"[1, 2]\"\x7d" then
      Except.ok (Json.obj [("response", Json.str "[1, 2]")])
    else if s = "[1, 2]" then Except.ok (Json.arr [Json.num 1, Json.num 2])
    else Except.error "Expecting value: line 1 column 1 (char 0)"

/-- A network answering 200 OK with a body whose "response" text is
"[1, 2]". -/
def sendArray : HttpRequest → HttpResult :=
  fun _ => HttpResult.response 200 "OK" "\x7b\"response\": \"[1, 2]\"\x7d"

/-- Witness for C5: a JSON array — lacking all three expected keys — passes
through as the analysis unchanged. -/
theorem analyze_system_passthrough_witness :
    (analyze_system loadsArray sendArray "a press").2 = Except.ok
      { input_description := "a press",
        analysis := Json.arr [Json.num 1, Json.num 2] } :=
  analyze_system_passthrough loadsArray sendArray "a press"
    200 "OK" "\x7b\"response\": \"[1, 2]\"\x7d"
    (Json.obj [("response", Json.str "[1, 2]")]) "[1, 2]"
    (Json.arr [Json.num 1, Json.num 2])
    rfl (by decide) rfl rfl rfl

/-- C6: for every request whose JSON body is an object without the
"description" key, the route calls the Analysis Client with the empty
string and returns that call's result, rather than failing. -/
theorem analyze_missing_description (loads : String → Except String Json)
    (send : HttpRequest → HttpResult) (entries : List (String × Json))
    (h : jsonLookup entries "description" = none) :
    analyze loads send (Json.obj entries) = (analyze_system loads send "").2 := by
  simp [analyze, pyGet, h, pyStr]

/-- json.loads behaviour for the C6 witness (never consulted: the call
fails at transport level). -/
def loadsRouteW : String → Except String Json :=
  fun _ => Except.error "Expecting value: line 1 column 1 (char 0)"

/-- A network raising a connection error, for the C6 witness. -/
def sendRouteW : HttpRequest → HttpResult :=
  fun _ => HttpResult.transportError "Connection refused"

/-- Witness for C6: a body with only an unrelated key. -/
theorem analyze_missing_description_witness :
    analyze loadsRouteW sendRouteW (Json.obj [("foo", Json.num 1)])
      = (analyze_system loadsRouteW sendRouteW "").2 :=
  analyze_missing_description loadsRouteW sendRouteW [("foo", Json.num 1)] rfl

/-- json.loads behaviour for the C7 counterexample (never consulted: the
route fails before any downstream call). -/
def loadsListBody : String → Except String Json :=
  fun _ => Except.error "Expecting value: line 1 column 1 (char 0)"

/-- A network raising a connection error, for the C7 counterexample. -/
def sendListBody : HttpRequest → HttpResult :=
  fun _ => HttpResult.transportError "Connection refused"

/-- Counterexample to C7 as stated: a POST /analyze whose JSON body is the
list [] makes data.get raise AttributeError, which Flask turns into a 500
response — not a 200 with the envelope keys. -/
theorem analyze_always_200_counterexample :
    analyze loadsListBody sendListBody (Json.arr [])
      = Except.error (PyError.attributeError "object has no attribute get") ∧
    flaskStatus (analyze loadsListBody sendListBody (Json.arr [])) = 500 :=
  ⟨rfl, rfl⟩

/-- The route on an object body reduces to analyze_system at the
description the body determines. -/
theorem analyze_obj_eq (loads : String → Except String Json)
    (send : HttpRequest → HttpResult) (entries : List (String × Json)) :
    analyze loads send (Json.obj entries)
      = (analyze_system loads send (routeDescription entries)).2 := by
  cases hl : jsonLookup entries "description" with
  | some v => simp [analyze, pyGet, hl, routeDescription]
  | none => simp [analyze, pyGet, hl, routeDescription, pyStr]

/-- C7 amended: for every POST /analyze request whose JSON body is an
object, and whose downstream outcome is a transport error, a 4xx/5xx
status, a non-JSON body, or a response whose parsed body is an object with
a string under "response", the handler responds 200 with a JSON body
holding exactly the two top-level keys input_description and analysis;
other request bodies or downstream outcomes raise out of the handler and
Flask answers 500. -/
theorem analyze_always_200 (loads : String → Except String Json)
    (send : HttpRequest → HttpResult) (entries : List (String × Json))
    (h : ReturnsEnvelope loads (send (theRequest (routeDescription entries)))) :
    flaskStatus (analyze loads send (Json.obj entries)) = 200 ∧
    ∃ env, analyze loads send (Json.obj entries) = Except.ok env ∧
      hasKey (envelopeJson env) "input_description" = true ∧
      hasKey (envelopeJson env) "analysis" = true := by
  obtain ⟨v, hv⟩ := runRequest_ok loads (send (theRequest (routeDescription entries))) h
  rw [analyze_obj_eq loads send entries]
  simp only [analyze_system, hv]
  exact ⟨rfl, ⟨_, rfl, rfl, rfl⟩⟩

/-- json.loads behaviour for the C7 witness (never consulted: the call
fails at transport level). -/
def loadsOkW : String → Except String Json :=
  fun _ => Except.error "Expecting value: line 1 column 1 (char 0)"

/-- A network raising a connection error, for the C7 witness. -/
def sendOkW : HttpRequest → HttpResult :=
  fun _ => HttpResult.transportError "Connection refused"

/-- Witness for C7 amended: an object body with a description and a
transport-error downstream outcome still yields a 200 envelope. -/
theorem analyze_always_200_witness :
    flaskStatus (analyze loadsOkW sendOkW (Json.obj [("description", Json.str "an oven")])) = 200 ∧
    ∃ env, analyze loadsOkW sendOkW (Json.obj [("description", Json.str "an oven")])
        = Except.ok env ∧
      hasKey (envelopeJson env) "input_description" = true ∧
      hasKey (envelopeJson env) "analysis" = true :=
  analyze_always_200 loadsOkW sendOkW [("description", Json.str "an oven")]
    (Or.inl ⟨"Connection refused", rfl⟩)

/-- C9: if the downstream call answers 2xx (or any status below 400) with a
valid JSON body that is an object lacking the key "response",
analyze_system raises an uncaught KeyError — caught by neither handler — so
no envelope is returned. -/
theorem analyze_system_missing_response_raises (loads : String → Except String Json)
    (send : HttpRequest → HttpResult) (d : String)
    (status : Nat) (reason body : String) (entries : List (String × Json))
    (h1 : send (theRequest d) = HttpResult.response status reason body)
    (h2 : ¬(400 ≤ status ∧ status < 600))
    (h3 : loads body = Except.ok (Json.obj entries))
    (h4 : jsonLookup entries "response" = none) :
    (analyze_system loads send d).2 = Except.error (PyError.keyError "response") := by
  simp [analyze_system, runRequest, h1, if_neg h2, h3, pySubscript, h4]

/-- json.loads behaviour for the C9 witness: the body parses to a dict with
only the key "done". -/
def loadsNoResponseKey : String → Except String Json :=
  fun s =>
    if s = "\x7b\"done\": true\x7d" then
      Except.ok (Json.obj [("done", Json.bool true)])
    else Except.error "Expecting value: line 1 column 1 (char 0)"

/-- A network answering 200 OK with a valid JSON object body lacking
"response". -/
def sendNoResponseKey : HttpRequest → HttpResult :=
  fun _ => HttpResult.response 200 "OK" "\x7b\"done\": true\x7d"

/-- Witness for C9 at the body holding only the key "done". -/
theorem analyze_system_missing_response_raises_witness :
    (analyze_system loadsNoResponseKey sendNoResponseKey "a crane").2
      = Except.error (PyError.keyError "response") :=
  analyze_system_missing_response_raises loadsNoResponseKey sendNoResponseKey "a crane"
    200 "OK" "\x7b\"done\": true\x7d" [("done", Json.bool true)]
    rfl (by decide) rfl rfl
